import Mathlib

/-!
Verification of the BRI ECR simulator's protocol layer, shallowly embedded
from the repository sources:

* `src/routes/ecr_core.py`   — wire codec (fallback pack/parse, LRC)
* `src/routes/serial_comm.py` — serial reader framing
* `src/routes/socket_comm.py` — REST-adapter polling loop
* `src/routes/message_protocol.py`, `src/routes/ecr_config.py` —
  transaction orchestration and the transaction-record store

Bytes are modelled as `Nat` (all values stay below 256 on the code paths
considered; XOR of bytes never overflows).  Python strings are modelled as
`List Char`.  Python `str.isdigit` / `str.isalnum` are modelled by their
ASCII restrictions (`Char.isDigit` / `Char.isAlphanum`); on the ASCII data
the codec handles these coincide with Python's behaviour, and the
subsequent `.encode("ascii")` steps are then the identity byte map.
Fallible Python code (raising `ValueError`) is modelled with
`Except String`.
-/

set_option maxRecDepth 16000

namespace Ecr

/-- `EcrCore.calculate_lrc` (`ecr_core.py:174-180`): running XOR
(`lrc ^= byte`) over all bytes, starting from 0. -/
def calculate_lrc (data : List Nat) : Nat :=
  data.foldl (fun lrc b => Nat.xor lrc b) 0

/-- Python `str.zfill w` / `"%0*d"` zero padding for unsigned digit
strings: prepend `'0'` up to width `w`. -/
def zfill (s : List Char) (w : Nat) : List Char :=
  List.replicate (w - s.length) '0' ++ s

/-- Little-endian decimal digit characters of `n`, with explicit fuel so
that the definition is structurally recursive (any `fuel ≥ n` is enough,
since `n` has at most `n` digits). -/
def decDigitsRev (fuel n : Nat) : List Char :=
  match fuel with
  | 0 => []
  | fuel + 1 => if n = 0 then [] else Nat.digitChar (n % 10) :: decDigitsRev fuel (n / 10)

/-- Decimal representation of a natural number, Python `str(n)` / `"%d"`
for `n ≥ 0` (most significant digit first). -/
def decRepr (n : Nat) : List Char :=
  if n = 0 then ['0'] else (decDigitsRev n n).reverse

/-- Value of a big-endian string of ASCII decimal digits
(Python `int(s)` for plain nonempty digit strings). -/
def natOfDigits (s : List Char) : Nat :=
  s.foldl (fun acc c => acc * 10 + (c.toNat - 48)) 0

/-- Value of one hexadecimal digit character, if any. -/
def hexDigitVal (c : Char) : Option Nat :=
  if '0' ≤ c ∧ c ≤ '9' then some (c.toNat - 48)
  else if 'a' ≤ c ∧ c ≤ 'f' then some (c.toNat - 87)
  else if 'A' ≤ c ∧ c ≤ 'F' then some (c.toNat - 55)
  else none

/-- Python `int(s, 16)` modelled for nonempty strings of plain hex digits
(the forms the simulator feeds it: two-character codes such as `"01"`). -/
def parseHex (s : List Char) : Option Nat :=
  if s.isEmpty then none
  else s.foldlM (fun acc c => (hexDigitVal c).map (fun v => acc * 16 + v)) 0

/-- `EcrCore._validate_transaction_type` (`ecr_core.py:399-408`): parse the
hex code and require `0x01 ≤ v ≤ 0x1E`; both the parse failure and the
range failure surface as the same `ValueError`. -/
def validate_transaction_type (trans_type : List Char) : Except String Nat :=
  match parseHex trans_type with
  | some v =>
      if 1 ≤ v ∧ v ≤ 0x1E then .ok v
      else .error "Transaction type must be a valid hex code (01-1E)"
  | none => .error "Transaction type must be a valid hex code (01-1E)"

/-- `EcrCore._format_amount` (`ecr_core.py:410-432`): strip commas, parse
the integer, format as `"%010d" + "00"` and require the result to be 12
digits.  `trans_type` and `use_serial_multiplier` are accepted and ignored,
exactly as in the source.  Negative amounts are rejected (source: the
`amount_int < 0` check); `int()` is modelled for plain digit strings. -/
def format_amount (amount : List Char) (trans_type : List Char)
    (use_serial_multiplier : Bool) : Except String (List Char) :=
  let cleaned := amount.filter (fun c => c ≠ ',')
  if cleaned ≠ [] ∧ cleaned.all Char.isDigit then
    let amount_int := natOfDigits cleaned
    let amount_str := zfill (decRepr amount_int) 10 ++ ['0', '0']
    if amount_str.all Char.isDigit ∧ amount_str.length = 12 then .ok amount_str
    else .error "Amount must be a valid number"
  else .error "Amount must be a valid number"

/-- `EcrCore._format_invoice_number` (`ecr_core.py:434-474`): empty input
becomes `"0"` (`invoice_no or "0"`), the string must be numeric, the
UI cap depends on the transaction-type string (6 for `"03"`/`"0C"`, 10 for
`"06"`, 12 for `"05"` and everything else), and the accepted value is
always zero-padded to 12 characters (`zfill(12)`). -/
def format_invoice_number (invoice_no : List Char) (trans_type : List Char) :
    Except String (List Char) :=
  let invoice_str := if invoice_no.isEmpty then ['0'] else invoice_no
  if ¬ invoice_str.all Char.isDigit then .error "Invoice number must be numeric"
  else if trans_type = ['0', '3'] ∨ trans_type = ['0', 'C'] then
    if invoice_str.length > 6 then .error "Trace number must be 6 digits or less"
    else .ok (zfill invoice_str 12)
  else if trans_type = ['0', '6'] then
    if invoice_str.length > 10 then .error "Reference ID must be 10 digits or less"
    else .ok (zfill invoice_str 12)
  else if trans_type = ['0', '5'] then
    if invoice_str.length > 12 then .error "Reference ID must be 12 digits or less"
    else .ok (zfill invoice_str 12)
  else
    if invoice_str.length > 12 then .error "Invoice number must be 12 digits or less"
    else .ok (zfill invoice_str 12)

/-- `EcrCore._validate_card_number` (`ecr_core.py:476-481`): a card number
is accepted when it is empty or consists of alphanumerics and spaces; it is
returned unchanged. -/
def validate_card_number (card_no : List Char) : Except String (List Char) :=
  if ¬ card_no.isEmpty ∧ ¬ card_no.all (fun c => c.isAlphanum || c == ' ') then
    .error "Card number must be alphanumeric"
  else .ok card_no

/-- The 19-byte `szCardNo` field of `EcrCore._pack_manual`
(`ecr_core.py:522-526`): NUL padding when empty, otherwise
`ljust(19, '\x00')` then truncation to 19 bytes. -/
def cardNoBytes (card_no_str : List Char) : List Nat :=
  if card_no_str.isEmpty then List.replicate 19 0
  else ((card_no_str ++ List.replicate (19 - card_no_str.length) (Char.ofNat 0)).take 19).map
    Char.toNat

/-- `EcrCore._pack_manual` (`ecr_core.py:512-551`): build the 200-byte
payload `[transType:1][amount:12][addAmount:12][invoiceNo:12][cardNo:19]`
`[filler:144]`, frame it as `STX | 0x02 0x00 | payload | ETX`, and append
the LRC computed over everything including STX.  (The source's
`assert len == 200` holds for every validated input, proved below.) -/
def pack_manual (trans_type_int : Nat) (amount_str add_amount_str invoice_str
    card_no_str : List Char) : List Nat :=
  let message_data := trans_type_int ::
    (amount_str.map Char.toNat ++ add_amount_str.map Char.toNat ++
      invoice_str.map Char.toNat ++ cardNoBytes card_no_str ++ List.replicate 144 0)
  let to_lrc := 0x02 :: 0x02 :: 0x00 :: (message_data ++ [0x03])
  to_lrc ++ [calculate_lrc to_lrc]

/-- `EcrCore.pack_request_message` (`ecr_core.py:351-383`) on the fallback
(no native library) path: run the four validators in source order, then
`_pack_manual`. -/
def pack_request_message (trans_type amount invoice_no card_no add_amount : List Char)
    (use_serial_multiplier : Bool) : Except String (List Nat) :=
  match validate_transaction_type trans_type with
  | .error e => .error e
  | .ok trans_type_int =>
  match format_amount amount trans_type use_serial_multiplier with
  | .error e => .error e
  | .ok amount_str =>
  match format_amount add_amount trans_type use_serial_multiplier with
  | .error e => .error e
  | .ok add_amount_str =>
  match format_invoice_number invoice_no trans_type with
  | .error e => .error e
  | .ok invoice_str =>
  match validate_card_number card_no with
  | .error e => .error e
  | .ok card_no_str =>
    .ok (pack_manual trans_type_int amount_str add_amount_str invoice_str card_no_str)

/-! ## Response parsing (`EcrCore._parse_manual` and its helpers) -/

/-- The whitespace characters stripped by Python `str.strip()`
(space, tab, newline, carriage return, vertical tab, form feed). -/
def pyIsSpace (c : Char) : Bool :=
  c == ' ' || c == '\t' || c == '\n' || c == '\r' || c.toNat == 11 || c.toNat == 12

/-- Python `str.strip()`. -/
def stripChars (s : List Char) : List Char :=
  ((s.dropWhile pyIsSpace).reverse.dropWhile pyIsSpace).reverse

/-- Python `str.rstrip('\x00')`. -/
def rstripNul (s : List Char) : List Char :=
  (s.reverse.dropWhile (fun c => c.toNat == 0)).reverse

/-- Python `bytes.decode("ascii", errors="ignore")`: non-ASCII bytes are
dropped, the rest become their ASCII characters. -/
def decodeAsciiIgnore (bs : List Nat) : List Char :=
  (bs.filter (fun b => b < 128)).map Char.ofNat

/-- `clean_field` inside `EcrCore._parse_manual` (`ecr_core.py:599-601`):
decode as ASCII ignoring errors, remove trailing NULs, strip whitespace. -/
def clean_field (bs : List Nat) : List Char :=
  stripChars (rstripNul (decodeAsciiIgnore bs))

/-- `EcrCore.format_amount` (`ecr_core.py:182-195`), the response-side
display conversion: empty/whitespace input gives `""`; a numeric string is
divided by 100 (integral results printed as integers, others with two
decimals); anything else is returned unchanged.  The source computes
`amount_int / 100` in floating point and formats with `"%.2f"`; for every
value a 12-byte wire field can hold (`n < 10^12`) the float rounds to
exactly `n / 100` at two decimals, so the integer model below is exact. -/
def format_amount_display (s : List Char) : List Char :=
  if stripChars s = [] then []
  else if s ≠ [] ∧ s.all Char.isDigit then
    let n := natOfDigits s
    if n % 100 = 0 then decRepr (n / 100)
    else decRepr (n / 100) ++ '.' :: zfill (decRepr (n % 100)) 2
  else s

/-- `EcrCore.format_date` (`ecr_core.py:197-207`): `YYYYMMDD` becomes
`YYYY-MM-DD`; anything that is not 8 characters long is unchanged. -/
def format_date (s : List Char) : List Char :=
  if s.length ≠ 8 then s
  else s.take 4 ++ '-' :: ((s.drop 4).take 2) ++ '-' :: s.drop 6

/-- `EcrCore.format_time` (`ecr_core.py:209-219`): `HHMMSS` becomes
`HH:MM` (seconds dropped); anything not 6 characters long is unchanged. -/
def format_time (s : List Char) : List Char :=
  if s.length ≠ 6 then s
  else s.take 2 ++ ':' :: ((s.drop 2).take 2)

/-- One uppercase hexadecimal digit character. -/
def hexDigitChar (d : Nat) : Char :=
  if d < 10 then Char.ofNat (48 + d) else Char.ofNat (55 + d)

/-- Python `f"{b:02X}"` for a byte value `b < 256`. -/
def toHex2 (b : Nat) : List Char :=
  [hexDigitChar (b / 16 % 16), hexDigitChar (b % 16)]

/-- A byte slice `data[off : off+len]`. -/
def byteField (data : List Nat) (off len : Nat) : List Nat :=
  (data.drop off).take len

/-- The parsed-response dictionary built by `EcrCore._parse_manual`
(`ecr_core.py:738-769`), one field per key. -/
structure ParsedResponse where
  transType : List Char
  tid : List Char
  mid : List Char
  batchNumber : List Char
  issuerName : List Char
  traceNo : List Char
  invoiceNo : List Char
  entryMode : List Char
  transAmount : List Char
  totalAmount : List Char
  cardNo : List Char
  cardholderName : List Char
  date : List Char
  time : List Char
  approvalCode : List Char
  responseCode : List Char
  refNumber : List Char
  balancePrepaid : List Char
  topupCardNo : List Char
  transAddAmount : List Char
  filler : List Char
  qrCode : List Char
deriving DecidableEq, Repr

/-- The field unpacking of `EcrCore._parse_manual`
(`ecr_core.py:658-769`): slice the 300-byte data block by fixed offsets,
clean each field, convert the amount, date and time fields for display,
and split the cleaned 84-byte filler into a status message or QR data by
the leading-`"00"` heuristic (`ecr_core.py:728-735`). -/
def mkParsedResponse (data : List Nat) : ParsedResponse :=
  let trans_amount_raw := clean_field (byteField data 68 12)
  let total_amount_raw := clean_field (byteField data 80 12)
  let date_raw := clean_field (byteField data 137 8)
  let time_raw := clean_field (byteField data 145 6)
  let balance_prepaid_raw := clean_field (byteField data 173 12)
  let trans_add_amount_raw := clean_field (byteField data 204 12)
  let filler_content := clean_field (byteField data 216 84)
  let qr_heuristic := filler_content ≠ [] ∧ filler_content.take 2 ≠ ['0', '0']
  { transType := toHex2 (data.getD 0 0)
    tid := clean_field (byteField data 1 8)
    mid := clean_field (byteField data 9 15)
    batchNumber := clean_field (byteField data 24 6)
    issuerName := clean_field (byteField data 30 25)
    traceNo := clean_field (byteField data 55 6)
    invoiceNo := clean_field (byteField data 61 6)
    entryMode := clean_field (byteField data 67 1)
    transAmount :=
      if trans_amount_raw ≠ [] then format_amount_display trans_amount_raw else []
    totalAmount :=
      if total_amount_raw ≠ [] then format_amount_display total_amount_raw else []
    cardNo := clean_field (byteField data 92 19)
    cardholderName := clean_field (byteField data 111 26)
    date := if date_raw ≠ [] then format_date date_raw else []
    time := if time_raw ≠ [] then format_time time_raw else []
    approvalCode := clean_field (byteField data 151 8)
    responseCode := clean_field (byteField data 159 2)
    refNumber := clean_field (byteField data 161 12)
    balancePrepaid :=
      if balance_prepaid_raw ≠ [] then format_amount_display balance_prepaid_raw else []
    topupCardNo := clean_field (byteField data 185 19)
    transAddAmount :=
      if trans_add_amount_raw ≠ [] then format_amount_display trans_add_amount_raw else []
    filler := if qr_heuristic then filler_content else []
    qrCode := if qr_heuristic then [] else filler_content }

/-- `EcrCore._parse_manual` (`ecr_core.py:596-771`): require at least 5
bytes, STX first, packed-decimal length equal to 300 and total length at
least 305; then unpack the 300-byte data block by fixed offsets.  The
ETX/LRC inspection at `ecr_core.py:639-654` only emits log warnings — a
wrong or missing ETX or LRC never changes the result — so it contributes
nothing to this value-level model. -/
def parse_manual (response_bytes : List Nat) : Except String ParsedResponse :=
  if response_bytes.length < 5 then .error "Response too short"
  else if response_bytes.getD 0 0 ≠ 0x02 then .error "Missing STX"
  else
    let length_bytes := (response_bytes.drop 1).take 2
    let msg_len := length_bytes.getD 0 0 * 100 + length_bytes.getD 1 0
    if msg_len ≠ 300 then
      .error ("Invalid length: " ++ toString msg_len ++ ", expected 300")
    else
      let expected_total := 1 + 2 + msg_len + 1 + 1
      if response_bytes.length < expected_total then
        .error ("Response too short: " ++ toString response_bytes.length ++
          ", minimum expected " ++ toString expected_total)
      else
        .ok (mkParsedResponse ((response_bytes.drop 3).take msg_len))

/-! ## Serial reader framing (`SerialCommListener`) -/

/-- Bytes consumed from the serial stream by one framing action, and the
stream left over. -/
structure ReadResult where
  consumed : List Nat
  rest : List Nat
deriving DecidableEq, Repr

/-- `SerialCommListener._read_full_message` (`serial_comm.py:175-230`),
modelled over the waiting byte stream (the loop has already consumed the
STX): read exactly 2 length bytes; if both arrive, decode
`msg_len = (length_bytes[0] << 8) | length_bytes[1]` (`serial_comm.py:188`)
and read `msg_len + 2` further bytes (message + ETX + LRC).  A stream
`read n` returns `min n available` bytes like PySerial's timeout read; the
ETX inspection and the callbacks consume no further stream bytes. -/
def read_full_message (stream : List Nat) : ReadResult :=
  let length_bytes := stream.take 2
  if length_bytes.length = 2 then
    let msg_len := Nat.lor (Nat.shiftLeft (length_bytes.getD 0 0) 8) (length_bytes.getD 1 0)
    let remaining := (stream.drop 2).take (msg_len + 2)
    { consumed := 0x02 :: (length_bytes ++ remaining)
      rest := (stream.drop 2).drop (msg_len + 2) }
  else
    { consumed := 0x02 :: length_bytes, rest := stream.drop 2 }

/-- One dispatch step of `SerialCommListener._listener_loop`
(`serial_comm.py:95-117`) after the first byte of an iteration has been
read: ACK (0x06) and NAK (0x15) are reported without reading further; STX
(0x02) enters `_read_full_message`; any other byte consumes nothing more
in this step (the QR-collection mode that may follow a response is outside
this model). -/
def listener_step (first_byte : Nat) (stream : List Nat) : ReadResult :=
  if first_byte = 0x06 then { consumed := [first_byte], rest := stream }
  else if first_byte = 0x15 then { consumed := [first_byte], rest := stream }
  else if first_byte = 0x02 then read_full_message stream
  else { consumed := [first_byte], rest := stream }

/-! ## REST-adapter polling (`SocketComm._poll_rest_api_result`) -/

/-- The fields of the REST adapter's result JSON that the simulator reads
(`socket_comm.py:488-536`). -/
structure RestResponse where
  traceNo : List Char
  invoiceNo : List Char
  responseCode : List Char
  qrCode : List Char
deriving DecidableEq, Repr

/-- Outcome of one poll of the result endpoint: an HTTP status with a
response body, or a network error (`requests.exceptions.RequestException`). -/
inductive PollReply where
  | status (code : Nat) (response : RestResponse)
  | netError
deriving DecidableEq, Repr

/-- Result of `_check_transaction_success`. -/
structure SuccessCheck where
  failed : Bool
  failure_reason : List Char
deriving DecidableEq, Repr

/-- `EcrUtils.check_transaction_success` (`ecr_config.py:482-496`) and the
textually identical `SocketComm._check_transaction_success`
(`socket_comm.py:520-536`): response code `"ER"` fails with the `qrCode`
text as reason; any code other than `"00"` and `"Z1"` fails with
`"Response code: <code>"`.  The `responseCode` and `qrCode` keys are always
present in the dictionaries this model builds, so the `in` test and the
`.get` default do not arise. -/
def check_transaction_success (resp_code qr_code : List Char) : SuccessCheck :=
  if resp_code = ['E', 'R'] then { failed := true, failure_reason := qr_code }
  else if resp_code ≠ ['0', '0'] ∧ resp_code ≠ ['Z', '1'] then
    { failed := true, failure_reason := "Response code: ".toList ++ resp_code }
  else { failed := false, failure_reason := [] }

/-- The value returned by `SocketComm._poll_rest_api_result` on success
(`socket_comm.py:499-505`): the response dictionary (with `traceNo` and
`invoiceNo` swapped) and the success check computed on it. -/
structure RestResult where
  response : RestResponse
  transaction_succeeded : SuccessCheck
deriving DecidableEq, Repr

/-- The polling loop of `SocketComm._poll_rest_api_result`
(`socket_comm.py:440-518`), driven by `responder`, the result endpoint's
reply to the n-th poll.  `fuel` is the number of polls the
`while poll_count < max_polls` guard still allows, so the loop is entered
with `fuel = 6000`.  A 503 reply and a network error `continue`; a 200
reply returns the parsed result after swapping `traceNo`/`invoiceNo`
(`socket_comm.py:490-496`); any other status `break`s out of the loop and
reaches the same `raise ValueError("Polling timeout …")` that exhaustion
reaches (`socket_comm.py:506-518`).  The second component counts the polls
performed (`poll_count`). -/
def poll_rest_from (responder : Nat → PollReply) (poll_count : Nat) :
    Nat → Except String RestResult × Nat
  | 0 => (.error "Polling timeout after 10.0 minutes", poll_count)
  | fuel + 1 =>
    let n := poll_count + 1
    match responder n with
    | .netError => poll_rest_from responder n fuel
    | .status code resp =>
      if code = 503 then poll_rest_from responder n fuel
      else if code = 200 then
        let swapped := { resp with traceNo := resp.invoiceNo, invoiceNo := resp.traceNo }
        (.ok { response := swapped,
               transaction_succeeded :=
                 check_transaction_success swapped.responseCode swapped.qrCode }, n)
      else (.error "Polling timeout after 10.0 minutes", n)

/-- `SocketComm._poll_rest_api_result` with its configured bound
`max_polls = 6000` (`socket_comm.py:452`). -/
def poll_rest_api_result (responder : Nat → PollReply) : Except String RestResult × Nat :=
  poll_rest_from responder 0 6000

/-! ## Transaction store (`EcrConfig`) and orchestration
(`TransactionProcessor`) -/

/-- A transaction record's value, stored under its id.  The keys modelled
are the ones the orchestrator reads or writes (`message_protocol.py`);
`response` holds either a parsed serial response, the `basic_response`
dictionary built when parsing fails (`message_protocol.py:355-360`), or a
REST response. -/
inductive ResponseValue where
  | parsed (p : ParsedResponse)
  | basic (raw_hex : String) (parse_error : String)
  | rest (r : RestResponse)
deriving DecidableEq, Repr

structure TransactionRecord where
  status : String
  timestamp : Nat
  raw_response : Option String := none
  response : Option ResponseValue := none
  error : Option String := none
  note : Option String := none
deriving DecidableEq, Repr

/-- The fields a `dict.update(...)` call on a record may set; `none` leaves
the record's value in place. -/
structure RecordPatch where
  status : Option String := none
  raw_response : Option String := none
  response : Option ResponseValue := none
  error : Option String := none
  note : Option String := none
deriving DecidableEq, Repr

/-- Python `record.update(patch)`. -/
def applyPatch (r : TransactionRecord) (p : RecordPatch) : TransactionRecord :=
  { status := p.status.getD r.status
    timestamp := r.timestamp
    raw_response := match p.raw_response with | some v => some v | none => r.raw_response
    response := match p.response with | some v => some v | none => r.response
    error := match p.error with | some v => some v | none => r.error
    note := match p.note with | some v => some v | none => r.note }

/-- The transaction-history dictionary, in Python's insertion order. -/
abbrev Store := List (String × TransactionRecord)

/-- `EcrConfig.add_transaction` (`ecr_config.py:87-98`): Python dict
assignment — an existing key keeps its position, a new key is appended. -/
def add_transaction (store : Store) (trx_id : String) (rec : TransactionRecord) : Store :=
  if store.any (fun p => p.1 == trx_id) then
    store.map (fun p => if p.1 == trx_id then (p.1, rec) else p)
  else store ++ [(trx_id, rec)]

/-- `EcrConfig.update_transaction` (`ecr_config.py:100-112`): merge the
patch into the record if the id is present, otherwise leave the store
unchanged (the source returns `False`). -/
def update_transaction (store : Store) (trx_id : String) (p : RecordPatch) : Store :=
  if store.any (fun q => q.1 == trx_id) then
    store.map (fun q => if q.1 == trx_id then (q.1, applyPatch q.2 p) else q)
  else store

/-- The status of a record, if the id is present. -/
def record_status (store : Store) (trx_id : String) : Option String :=
  (store.find? (fun p => p.1 == trx_id)).map (fun p => p.2.status)

/-- Python `max(x :: xs, key=lambda p: p[1])`: the first element with
maximal key (later elements replace the current maximum only when strictly
greater). -/
def pyMaxByTs (x : String × Nat) (xs : List (String × Nat)) : String × Nat :=
  xs.foldl (fun cur y => if y.2 > cur.2 then y else cur) x

/-- The callback payload delivered by the serial listener with a
`RESPONSE`/`RAW_RESPONSE` event: the hex dump of the frame and any
separately collected trailing (QR) bytes. -/
structure SerialResponseData where
  raw_response : String
  unknown_bytes : Option (List Nat) := none
deriving DecidableEq, Repr

/-- Python `bytes.fromhex` for strings of plain hex-digit pairs (which is
what `binascii.hexlify` produces); anything else fails. -/
def bytesFromHexChars : List Char → Option (List Nat)
  | [] => some []
  | [_] => none
  | hi :: lo :: rest =>
    match hexDigitVal hi, hexDigitVal lo, bytesFromHexChars rest with
    | some h, some l, some bs => some ((h * 16 + l) :: bs)
    | _, _, _ => none

/-- The `elif` QR normalisation of `_handle_serial_response`
(`message_protocol.py:323-334`): when the parsed response itself carries QR
text without a `"00"` prefix, prefix it. -/
def qrPrefixNormalize (parsed : ParsedResponse) : ParsedResponse :=
  let qr_data := stripChars parsed.qrCode
  if qr_data ≠ [] ∧ qr_data.take 2 ≠ ['0', '0'] then
    { parsed with qrCode := '0' :: '0' :: qr_data }
  else parsed

/-- The `update_data` patch `_handle_serial_response` builds for the
selected record (`message_protocol.py:257-367`): decode the hex dump; for
305-byte-or-longer dumps parse the leading 305 bytes first and fall back to
the whole dump; merge collected QR bytes as a `"00"`-prefixed ASCII string
(`message_protocol.py:289-321`, the ASCII decode with `errors="ignore"`
never raises, so the hex-format fallback branch is dead); resolve the
status from the response code.  Any parse failure yields the
`"error parsing"` patch with the `basic_response` value
(`message_protocol.py:351-367`). -/
def serial_update_data (raw_hex : String) (unknown_bytes : Option (List Nat)) : RecordPatch :=
  let fallback : String → RecordPatch := fun e =>
    { status := some "error parsing", raw_response := some raw_hex,
      response := some (.basic raw_hex e), error := some ("Parse error: " ++ e) }
  match bytesFromHexChars raw_hex.toList with
  | none => fallback "non-hexadecimal string"
  | some response_bytes =>
    let parsed0 :=
      if response_bytes.length ≥ 305 then
        match parse_manual (response_bytes.take 305) with
        | .ok r => Except.ok r
        | .error _ => parse_manual response_bytes
      else parse_manual response_bytes
    match parsed0 with
    | .error e => fallback e
    | .ok parsed =>
      let parsed1 :=
        match unknown_bytes with
        | some qr =>
          if qr ≠ [] then { parsed with qrCode := '0' :: '0' :: decodeAsciiIgnore qr }
          else qrPrefixNormalize parsed
        | none => qrPrefixNormalize parsed
      let success_check := check_transaction_success parsed1.responseCode parsed1.qrCode
      { status := some (if success_check.failed then "failed" else "success")
        raw_response := some raw_hex
        response := some (.parsed parsed1)
        error :=
          if success_check.failed then some (String.mk success_check.failure_reason)
          else none }

/-- `TransactionProcessor._handle_serial_response`
(`message_protocol.py:225-386`): only `RESPONSE`/`RAW_RESPONSE` events with
data are processed; the latest transaction with status `"processing"`
(Python `max` over the filtered history, first maximum on ties) receives
the `update_data` patch; with no processing transaction the response is
dropped and the store is untouched. -/
def handle_serial_response (store : Store) (response_type : String)
    (response_data : Option SerialResponseData) : Store :=
  match response_data with
  | none => store
  | some rd =>
    if response_type = "RESPONSE" ∨ response_type = "RAW_RESPONSE" then
      let processing_trxs :=
        (store.filter (fun p => p.2.status == "processing")).map fun p => (p.1, p.2.timestamp)
      match processing_trxs with
      | [] => store
      | x :: xs =>
        let latest_trx_id := (pyMaxByTs x xs).1
        update_transaction store latest_trx_id
          (serial_update_data rd.raw_response rd.unknown_bytes)
    else store

/-- `TransactionProcessor._process_socket_transaction`
(`message_protocol.py:160-223`) restricted to its effect on the transaction
record: on a successful transport result the record resolves to
`"success"`/`"failed"` from the recomputed success check; on a transport
error the record is set to `"error"` and the exception is re-raised. -/
def process_socket_transaction (store : Store) (trx_id : String)
    (result : Except String RestResult) : Store × Except String Unit :=
  match result with
  | .error e =>
    (update_transaction store trx_id { status := some "error", error := some e }, .error e)
  | .ok r =>
    let success_check := check_transaction_success r.response.responseCode r.response.qrCode
    if success_check.failed then
      (update_transaction store trx_id
        { status := some "failed", error := some (String.mk success_check.failure_reason),
          response := some (.rest r.response) }, .ok ())
    else
      (update_transaction store trx_id
        { status := some "success", response := some (.rest r.response) }, .ok ())

/-- `TransactionProcessor.process_transaction` (`message_protocol.py:66-118`)
on the socket path: create the record with status `"processing"`, run the
socket transaction, and on a propagated error overwrite the record with
status `"error"` once more (the handler at `message_protocol.py:109-111`). -/
def process_transaction_socket (store : Store) (trx_id : String) (now : Nat)
    (transport_result : Except String RestResult) : Store :=
  let store1 := add_transaction store trx_id { status := "processing", timestamp := now }
  match process_socket_transaction store1 trx_id transport_result with
  | (store2, .ok _) => store2
  | (store2, .error e) =>
    update_transaction store2 trx_id { status := some "error", error := some e }

example : format_amount "10".toList "01".toList true = .ok "000000001000".toList := by rfl

example :
    (pack_request_message "01".toList "10".toList "1".toList "".toList "0".toList true).isOk =
      true := by rfl

/-- Numeric value of a big-endian run of ASCII decimal digit bytes. -/
def natOfDigitBytes (bs : List Nat) : Nat :=
  bs.foldl (fun acc b => acc * 10 + (b - 48)) 0

/-! ## Supporting lemmas -/

theorem zfill_length (s : List Char) (w : Nat) (h : s.length ≤ w) :
    (zfill s w).length = w := by
  simp [zfill]
  omega

theorem take_append_length {α : Type} (a b : List α) (n : Nat) (h : a.length = n) :
    (a ++ b).take n = a := by
  subst h
  exact List.take_left a b

theorem drop_append_length {α : Type} (a b : List α) (n : Nat) (h : a.length = n) :
    (a ++ b).drop n = b := by
  subst h
  exact List.drop_left a b

theorem format_amount_ok (a t : List Char) (m : Bool) (s : List Char)
    (h : format_amount a t m = .ok s) :
    s = zfill (decRepr (natOfDigits (a.filter (fun c => c ≠ ',')))) 10 ++ ['0', '0'] ∧
      s.length = 12 := by
  simp only [format_amount] at h
  split at h
  · split at h
    · rename_i hguard
      cases h
      exact ⟨rfl, hguard.2⟩
    · cases h
  · cases h

theorem format_invoice_ok (inv t s : List Char)
    (h : format_invoice_number inv t = .ok s) :
    s = zfill (if inv.isEmpty then ['0'] else inv) 12 ∧ s.length = 12 := by
  simp only [format_invoice_number] at h
  generalize hg : (if inv.isEmpty = true then ['0'] else inv) = istr at h ⊢
  split at h
  · cases h
  · split at h
    · split at h
      · cases h
      · cases h
        exact ⟨rfl, zfill_length _ _ (by omega)⟩
    · split at h
      · split at h
        · cases h
        · cases h
          exact ⟨rfl, zfill_length _ _ (by omega)⟩
      · split at h
        · split at h
          · cases h
          · cases h
            exact ⟨rfl, zfill_length _ _ (by omega)⟩
        · split at h
          · cases h
          · cases h
            exact ⟨rfl, zfill_length _ _ (by omega)⟩

theorem cardNoBytes_length (c : List Char) : (cardNoBytes c).length = 19 := by
  simp only [cardNoBytes]
  split
  · simp
  · simp [List.length_take, List.length_append]
    omega

/-- Inversion of the fallback pack: a produced frame is `_pack_manual`
applied to the validated fields. -/
theorem pack_request_ok (tt a inv card add : List Char) (m : Bool) (frame : List Nat)
    (h : pack_request_message tt a inv card add m = .ok frame) :
    ∃ (t : Nat) (as_ ads invs cards : List Char),
      validate_transaction_type tt = .ok t ∧
      format_amount a tt m = .ok as_ ∧
      format_amount add tt m = .ok ads ∧
      format_invoice_number inv tt = .ok invs ∧
      validate_card_number card = .ok cards ∧
      frame = pack_manual t as_ ads invs cards := by
  simp only [pack_request_message] at h
  split at h
  · cases h
  · split at h
    · cases h
    · split at h
      · cases h
      · split at h
        · cases h
        · split at h
          · cases h
          · cases h
            exact ⟨_, _, _, _, _, by assumption, by assumption, by assumption,
              by assumption, by assumption, rfl⟩

/-- `_pack_manual`, rewritten with its frame structure made explicit. -/
theorem pack_manual_shape (t : Nat) (as_ ads invs cards : List Char) :
    pack_manual t as_ ads invs cards =
      0x02 :: 0x02 :: 0x00 ::
        ((t :: (as_.map Char.toNat ++ ads.map Char.toNat ++ invs.map Char.toNat ++
            cardNoBytes cards ++ List.replicate 144 0)) ++
          [0x03, calculate_lrc (0x02 :: 0x02 :: 0x00 ::
            ((t :: (as_.map Char.toNat ++ ads.map Char.toNat ++ invs.map Char.toNat ++
                cardNoBytes cards ++ List.replicate 144 0)) ++ [0x03]))]) := by
  simp [pack_manual, List.append_assoc]

theorem natOfDigits_foldl (l : List Char) (acc : Nat) :
    l.foldl (fun acc c => acc * 10 + (c.toNat - 48)) acc =
      acc * 10 ^ l.length + natOfDigits l := by
  induction l generalizing acc with
  | nil => simp [natOfDigits]
  | cons c l ih =>
    have h1 : natOfDigits (c :: l) = (c.toNat - 48) * 10 ^ l.length + natOfDigits l := by
      simp only [natOfDigits, List.foldl_cons]
      rw [ih]
      simp [natOfDigits]
    simp only [List.foldl_cons]
    rw [ih, h1, List.length_cons, pow_succ]
    ring

theorem natOfDigits_append (xs ys : List Char) :
    natOfDigits (xs ++ ys) = natOfDigits xs * 10 ^ ys.length + natOfDigits ys := by
  simp only [natOfDigits, List.foldl_append]
  rw [natOfDigits_foldl]
  rfl

theorem natOfDigits_replicate_zero (k : Nat) :
    natOfDigits (List.replicate k '0') = 0 := by
  induction k with
  | zero => rfl
  | succ k ih =>
    rw [List.replicate_succ]
    exact ih

theorem natOfDigits_zfill (s : List Char) (w : Nat) :
    natOfDigits (zfill s w) = natOfDigits s := by
  simp only [zfill]
  rw [natOfDigits_append, natOfDigits_replicate_zero]
  simp

theorem digitChar_val (d : Nat) (h : d < 10) : (Nat.digitChar d).toNat - 48 = d := by
  interval_cases d <;> rfl

theorem decDigitsRev_val (fuel : Nat) : ∀ n acc, n ≤ fuel →
    (decDigitsRev fuel n).reverse.foldl (fun acc c => acc * 10 + (c.toNat - 48)) acc =
      acc * 10 ^ (decDigitsRev fuel n).length + n := by
  induction fuel with
  | zero =>
    intro n acc h
    interval_cases n
    simp [decDigitsRev]
  | succ fuel ih =>
    intro n acc h
    by_cases hn : n = 0
    · subst hn
      simp [decDigitsRev]
    · have hdiv : n / 10 ≤ fuel := by omega
      simp only [decDigitsRev, if_neg hn, List.reverse_cons, List.foldl_append,
        List.foldl_cons, List.foldl_nil, List.length_cons]
      rw [ih (n / 10) acc hdiv, digitChar_val _ (Nat.mod_lt n (by omega)), pow_succ]
      have : n / 10 * 10 + n % 10 = n := by omega
      ring_nf
      omega

/-- Python `int` is a left inverse of Python `str` on naturals. -/
theorem natOfDigits_decRepr (n : Nat) : natOfDigits (decRepr n) = n := by
  by_cases hn : n = 0
  · subst hn; rfl
  · simp only [decRepr, if_neg hn, natOfDigits]
    have h := decDigitsRev_val n n 0 le_rfl
    simpa using h

theorem natOfDigitBytes_map_toNat (s : List Char) :
    natOfDigitBytes (s.map Char.toNat) = natOfDigits s := by
  simp [natOfDigitBytes, natOfDigits, List.foldl_map]

theorem drop_four_cons {α : Type} (a b c d : α) (l : List α) :
    (a :: b :: c :: d :: l).drop 4 = l := rfl

theorem drop_append_length_add {α : Type} (a b : List α) (n k : Nat) (h : a.length = n) :
    (a ++ b).drop (n + k) = b.drop k := by
  induction a generalizing n with
  | nil =>
    simp at h
    subst h
    simp
  | cons x xs ih =>
    simp at h
    subst h
    rw [List.cons_append, show xs.length + 1 + k = (xs.length + k) + 1 from by omega,
      List.drop_succ_cons]
    exact ih _ rfl

/-- Slicing out the invoice field: 12-byte amount and add-amount fields
precede it, so offset 24 into the payload-after-type. -/
theorem drop24_take12 (A B C R : List Nat) (hA : A.length = 12) (hB : B.length = 12)
    (hC : C.length = 12) : ((A ++ (B ++ (C ++ R))).drop 24).take 12 = C := by
  rw [show (24 : Nat) = 12 + 12 from rfl, drop_append_length_add _ _ _ _ hA,
    drop_append_length _ _ _ hB, take_append_length _ _ _ hC]

/-- Slicing out the card field: 12-byte amount, add-amount and invoice
fields precede it, so offset 36 into the payload-after-type. -/
theorem drop36_take19 (A B C D R : List Nat) (hA : A.length = 12) (hB : B.length = 12)
    (hC : C.length = 12) (hD : D.length = 19) :
    ((A ++ (B ++ (C ++ (D ++ R)))).drop 36).take 19 = D := by
  rw [show (36 : Nat) = 12 + 24 from rfl, drop_append_length_add _ _ _ _ hA,
    show (24 : Nat) = 12 + 12 from rfl, drop_append_length_add _ _ _ _ hB,
    drop_append_length _ _ _ hC, take_append_length _ _ _ hD]

/-! ## C1 — frame shape and LRC of the fallback pack -/

/-- C1: every request accepted by the fallback codec's validation packs to
a 205-byte frame `STX(0x02) | 0x02 0x00 | payload(200) | ETX(0x03) | LRC`,
where the LRC equals the XOR-fold of every preceding byte from STX through
ETX inclusive. -/
theorem pack_frame_shape (trans_type amount invoice_no card_no add_amount : List Char)
    (m : Bool) (frame : List Nat)
    (h : pack_request_message trans_type amount invoice_no card_no add_amount m = .ok frame) :
    ∃ payload : List Nat, payload.length = 200 ∧
      frame = 0x02 :: 0x02 :: 0x00 ::
        (payload ++ [0x03, calculate_lrc (0x02 :: 0x02 :: 0x00 :: (payload ++ [0x03]))]) ∧
      frame.length = 205 := by
  obtain ⟨t, as_, ads, invs, cards, _, ha, had, hi, _, hframe⟩ :=
    pack_request_ok _ _ _ _ _ _ _ h
  obtain ⟨-, ha12⟩ := format_amount_ok _ _ _ _ ha
  obtain ⟨-, had12⟩ := format_amount_ok _ _ _ _ had
  obtain ⟨-, hi12⟩ := format_invoice_ok _ _ _ hi
  have hlen : (t :: (as_.map Char.toNat ++ ads.map Char.toNat ++ invs.map Char.toNat ++
      cardNoBytes cards ++ List.replicate 144 0)).length = 200 := by
    simp [List.length_append, ha12, had12, hi12, cardNoBytes_length]
  refine ⟨_, hlen, ?_, ?_⟩
  · rw [hframe, pack_manual_shape]
  · rw [hframe, pack_manual_shape]
    simp [List.length_append, ha12, had12, hi12, cardNoBytes_length]

/-- C1 witness: a concrete SALE request. -/
theorem pack_frame_shape_witness :
    ∃ frame, pack_request_message "01".toList "10".toList "1".toList "".toList "0".toList true
        = .ok frame ∧
      ∃ payload : List Nat, payload.length = 200 ∧
        frame = 0x02 :: 0x02 :: 0x00 ::
          (payload ++ [0x03, calculate_lrc (0x02 :: 0x02 :: 0x00 :: (payload ++ [0x03]))]) ∧
        frame.length = 205 := by
  refine ⟨_, rfl, ?_⟩
  exact pack_frame_shape "01".toList "10".toList "1".toList "".toList "0".toList true _ rfl

/-! ## C6 — invoice caps and wire padding -/

/-- C6: the 15-digit invoice `"123456789012345"` is rejected both for SALE
(`"01"`, 12-digit cap) and VOID (`"03"`, 6-digit cap); and every invoice
accepted by its type-specific cap is zero-padded to exactly 12 characters
on the wire. -/
theorem invoice_caps_and_padding :
    format_invoice_number "123456789012345".toList "01".toList =
      .error "Invoice number must be 12 digits or less" ∧
    format_invoice_number "123456789012345".toList "03".toList =
      .error "Trace number must be 6 digits or less" ∧
    ∀ (inv t s : List Char), format_invoice_number inv t = .ok s →
      s = zfill (if inv.isEmpty then ['0'] else inv) 12 ∧ s.length = 12 := by
  refine ⟨by rfl, by rfl, ?_⟩
  intro inv t s h
  exact format_invoice_ok inv t s h

/-- C6 witness: invoice `"1"` for SALE is padded to `"000000000001"`. -/
theorem invoice_caps_and_padding_witness :
    ("000000000001".toList : List Char) =
        zfill (if ("1".toList : List Char).isEmpty then ['0'] else "1".toList) 12 ∧
      ("000000000001".toList : List Char).length = 12 :=
  invoice_caps_and_padding.2.2 "1".toList "01".toList "000000000001".toList (by rfl)

/-! ## C7 — amount wire encoding -/

/-- C7: packing amount `"10"` always yields the 12-byte wire amount field
`"000000001000"` (any transaction type, either multiplier flag), and in
general the wire amount is the input integer zero-padded to 10 digits with
`"00"` appended — the value multiplied by 100. -/
theorem amount_wire_format :
    (∀ (t : List Char) (m : Bool), format_amount "10".toList t m = .ok "000000001000".toList) ∧
    (∀ (tt inv card add : List Char) (m : Bool) (frame : List Nat),
      pack_request_message tt "10".toList inv card add m = .ok frame →
      (frame.drop 4).take 12 = "000000001000".toList.map Char.toNat) ∧
    (∀ (a t : List Char) (m : Bool) (s : List Char), format_amount a t m = .ok s →
      s = zfill (decRepr (natOfDigits (a.filter (fun c => c ≠ ',')))) 10 ++ ['0', '0']) := by
  refine ⟨fun t m => by rfl, ?_, fun a t m s h => (format_amount_ok a t m s h).1⟩
  intro tt inv card add m frame h
  obtain ⟨t, as_, ads, invs, cards, _, ha, _, _, _, hframe⟩ :=
    pack_request_ok _ _ _ _ _ _ _ h
  have h10 : format_amount "10".toList tt m = .ok "000000001000".toList := by rfl
  have has : as_ = "000000001000".toList := by
    have := ha.symm.trans h10
    exact (Except.ok.injEq _ _).mp this
  subst has hframe
  rw [pack_manual_shape]
  simp only [List.cons_append, List.append_assoc]
  rw [drop_four_cons]
  exact take_append_length _ _ _ (by rfl)

/-- C7 witness: amount `"10"` with transaction type `"01"`, both multiplier
flags, and the concretely packed frame. -/
theorem amount_wire_format_witness :
    format_amount "10".toList "01".toList true = .ok "000000001000".toList ∧
    format_amount "10".toList "01".toList false = .ok "000000001000".toList ∧
    (∃ frame,
      pack_request_message "01".toList "10".toList "1".toList "".toList "0".toList true
          = .ok frame ∧
      (frame.drop 4).take 12 = "000000001000".toList.map Char.toNat) ∧
    "000000001000".toList =
      zfill (decRepr (natOfDigits ("10".toList.filter (fun c => c ≠ ',')))) 10 ++ ['0', '0'] := by
  refine ⟨amount_wire_format.1 "01".toList true, amount_wire_format.1 "01".toList false,
    ⟨_, rfl, ?_⟩, ?_⟩
  · exact amount_wire_format.2.1 "01".toList "1".toList "".toList "0".toList true _ rfl
  · exact amount_wire_format.2.2 "10".toList "01".toList true "000000001000".toList (by rfl)

/-! ## C9 — oversized card numbers are truncated, never rejected -/

/-- C9: a card number that passes validation (alphanumerics and spaces)
and is longer than 19 characters does not make the fallback pack fail:
packing succeeds whenever the other fields validate, the frame is still
205 bytes, and the wire card field holds exactly the first 19 characters
of the input. -/
theorem long_card_truncated (tt a inv card add : List Char) (m : Bool)
    (t : Nat) (as_ ads invs : List Char)
    (ht : validate_transaction_type tt = .ok t)
    (ha : format_amount a tt m = .ok as_)
    (had : format_amount add tt m = .ok ads)
    (hi : format_invoice_number inv tt = .ok invs)
    (hcard : card.all (fun c => c.isAlphanum || c == ' ') = true)
    (hlen : card.length > 19) :
    ∃ frame, pack_request_message tt a inv card add m = .ok frame ∧
      frame.length = 205 ∧
      (frame.drop 40).take 19 = (card.take 19).map Char.toNat := by
  have hc : validate_card_number card = .ok card := by
    simp [validate_card_number, hcard]
  have hok : pack_request_message tt a inv card add m =
      .ok (pack_manual t as_ ads invs card) := by
    simp only [pack_request_message]
    rw [ht, ha, had, hi, hc]
  obtain ⟨-, ha12⟩ := format_amount_ok _ _ _ _ ha
  obtain ⟨-, had12⟩ := format_amount_ok _ _ _ _ had
  obtain ⟨-, hi12⟩ := format_invoice_ok _ _ _ hi
  have hcb : cardNoBytes card = (card.take 19).map Char.toNat := by
    have hempty : card.isEmpty = false := by
      cases card with
      | nil => simp at hlen
      | cons c cs => rfl
    simp [cardNoBytes, hempty, Nat.sub_eq_zero_of_le (le_of_lt hlen)]
  refine ⟨_, hok, ?_, ?_⟩
  · rw [pack_manual_shape]
    simp [List.length_append, ha12, had12, hi12, cardNoBytes_length]
  · rw [pack_manual_shape]
    simp only [List.cons_append, List.append_assoc]
    have h40 : ∀ l : List Nat, List.drop 40 (0x02 :: 0x02 :: 0x00 :: t :: l) = List.drop 36 l :=
      fun l => rfl
    rw [h40, drop36_take19 _ _ _ _ _ (by simp [ha12]) (by simp [had12]) (by simp [hi12])
      (cardNoBytes_length card), hcb]

/-- C9 witness: a 20-character card number. -/
theorem long_card_truncated_witness :
    ∃ frame,
      pack_request_message "07".toList "0".toList "".toList
          "12345678901234567890".toList "0".toList true = .ok frame ∧
      frame.length = 205 ∧
      (frame.drop 40).take 19 =
        ("12345678901234567890".toList.take 19).map Char.toNat :=
  long_card_truncated "07".toList "0".toList "".toList "12345678901234567890".toList
    "0".toList true 7 "000000000000".toList "000000000000".toList "000000000000".toList
    (by rfl) (by rfl) (by rfl) (by rfl) (by rfl) (by decide)

/-! ## C2 — the pack/parse round trip -/

/-- C2 counterexample: for the valid SALE request with amount `"10"`,
invoice `"1"`, no card, the fallback `Parse` applied to the fallback
`Pack`'s output does not succeed — it raises the invalid-length error
(the packed frame carries LEN = 200 while `Parse` demands 300). -/
theorem parse_pack_roundtrip_cex :
    ∃ frame,
      pack_request_message "01".toList "10".toList "1".toList "".toList "0".toList true
          = .ok frame ∧
      parse_manual frame = .error "Invalid length: 200, expected 300" := by
  refine ⟨_, rfl, ?_⟩
  rfl

/-- C2 (amended): the fallback `Parse` rejects every frame the fallback
`Pack` produces, with the invalid-length error (packed requests carry
LEN = 200, `Parse` requires 300), so the round trip never succeeds at the
parser level; the request's data nevertheless round-trips at the frame
level — the byte at offset 3 is the transaction-type code, the 12-digit
field at offset 4 holds 100 × the amount, and the 12-digit field at offset
28 holds the invoice number (zero-padding changing neither value). -/
theorem parse_pack_fields_embedded (trans_type amount invoice_no card_no add_amount : List Char)
    (m : Bool) (frame : List Nat)
    (h : pack_request_message trans_type amount invoice_no card_no add_amount m = .ok frame) :
    parse_manual frame = .error "Invalid length: 200, expected 300" ∧
    (∃ t, validate_transaction_type trans_type = .ok t ∧ frame.getD 3 0 = t) ∧
    natOfDigitBytes ((frame.drop 4).take 12) =
      100 * natOfDigits (amount.filter (fun c => c ≠ ',')) ∧
    natOfDigitBytes ((frame.drop 28).take 12) =
      natOfDigits (if invoice_no.isEmpty then ['0'] else invoice_no) := by
  obtain ⟨t, as_, ads, invs, cards, ht, ha, had, hi, hc, hframe⟩ :=
    pack_request_ok _ _ _ _ _ _ _ h
  obtain ⟨hav, ha12⟩ := format_amount_ok _ _ _ _ ha
  obtain ⟨-, had12⟩ := format_amount_ok _ _ _ _ had
  obtain ⟨hiv, hi12⟩ := format_invoice_ok _ _ _ hi
  subst hframe
  rw [pack_manual_shape]
  refine ⟨?_, ⟨t, ht, ?_⟩, ?_, ?_⟩
  · unfold parse_manual
    rw [if_neg (by simp [List.length_append]; omega)]
    trans (Except.error ("Invalid length: " ++ toString (200 : Nat) ++ ", expected 300") :
      Except String ParsedResponse)
    · rfl
    · rfl
  · simp [List.cons_append, List.getD_cons_succ, List.getD_cons_zero]
  · simp only [List.cons_append, List.append_assoc]
    rw [drop_four_cons, take_append_length _ _ 12 (by simp [ha12]),
      natOfDigitBytes_map_toNat, hav, natOfDigits_append, natOfDigits_zfill,
      natOfDigits_decRepr]
    simp [natOfDigits]
    ring
  · simp only [List.cons_append, List.append_assoc]
    have h28 : ∀ l : List Nat, List.drop 28 (0x02 :: 0x02 :: 0x00 :: t :: l) = List.drop 24 l :=
      fun l => rfl
    rw [h28, drop24_take12 _ _ _ _ (by simp [ha12]) (by simp [had12]) (by simp [hi12]),
      natOfDigitBytes_map_toNat, hiv, natOfDigits_zfill]

/-- C2 (amended) witness: the concrete SALE request of the counterexample;
its frame carries type 0x01, amount value 1000 = 100 × 10 and invoice
value 1. -/
theorem parse_pack_fields_embedded_witness :
    ∃ frame,
      pack_request_message "01".toList "10".toList "1".toList "".toList "0".toList true
          = .ok frame ∧
      (parse_manual frame = .error "Invalid length: 200, expected 300" ∧
        (∃ t, validate_transaction_type "01".toList = .ok t ∧ frame.getD 3 0 = t) ∧
        natOfDigitBytes ((frame.drop 4).take 12) =
          100 * natOfDigits ("10".toList.filter (fun c => c ≠ ',')) ∧
        natOfDigitBytes ((frame.drop 28).take 12) =
          natOfDigits (if ("1".toList : List Char).isEmpty then ['0'] else "1".toList)) := by
  refine ⟨_, rfl, ?_⟩
  exact parse_pack_fields_embedded "01".toList "10".toList "1".toList "".toList "0".toList
    true _ rfl

/-! ## C3 — serial reader length decoding -/

/-- `a <<< n ||| b` is plain addition when `b` fits in the shifted-away
low bits. -/
theorem shiftLeft_lor_eq : ∀ (n a b : Nat), b < 2 ^ n →
    Nat.lor (Nat.shiftLeft a n) b = a * 2 ^ n + b := by
  intro n
  induction n with
  | zero =>
    intro a b hb
    have : b = 0 := by omega
    subst this
    simp [Nat.shiftLeft_eq]
    exact Nat.or_zero a
  | succ n ih =>
    intro a b hb
    have hbit : Nat.bit (b.testBit 0) (b >>> 1) = b := Nat.bit_testBit_zero_shiftRight_one b
    have hsplit : 2 * (b >>> 1) + (b.testBit 0).toNat = b := by
      have h := hbit
      rwa [Nat.bit_val] at h
    have hhalf : b >>> 1 < 2 ^ n := by
      have h2 : 2 ^ (n + 1) = 2 * 2 ^ n := by rw [pow_succ]; ring
      rw [Nat.shiftRight_one]
      omega
    have hshift : Nat.shiftLeft a (n + 1) = Nat.bit false (Nat.shiftLeft a n) := by
      simp [Nat.shiftLeft_eq, Nat.bit_val, pow_succ]
      ring
    calc Nat.lor (Nat.shiftLeft a (n + 1)) b
        = Nat.lor (Nat.bit false (Nat.shiftLeft a n)) (Nat.bit (b.testBit 0) (b >>> 1)) := by
          rw [hshift, hbit]
      _ = Nat.bit (false || b.testBit 0) (Nat.lor (Nat.shiftLeft a n) (b >>> 1)) :=
          Nat.lor_bit false (Nat.shiftLeft a n) (b.testBit 0) (b >>> 1)
      _ = Nat.bit (b.testBit 0) (a * 2 ^ n + b >>> 1) := by rw [ih a _ hhalf]; simp
      _ = 2 * (a * 2 ^ n + b >>> 1) + (b.testBit 0).toNat := by rw [Nat.bit_val]
      _ = 2 * (a * 2 ^ n) + (2 * (b >>> 1) + (b.testBit 0).toNat) := by ring
      _ = a * 2 ^ (n + 1) + b := by rw [hsplit, pow_succ]; ring

/-- C3 counterexample: after STX, length bytes 0x02 0x00 (packed-decimal
200) are not followed by a read of 200 + 2 bytes: the reader decodes them
big-endian as 512 and consumes 512 + 2 further bytes, a 517-byte frame in
total instead of the 205 the claim predicts. -/
theorem serial_length_decode_cex :
    (listener_step 0x02 (0x02 :: 0x00 :: List.replicate 514 7)).consumed.length = 517 ∧
    (517 : Nat) ≠ 1 + 2 + (0x02 * 100 + 0x00) + 2 := by
  constructor
  · rfl
  · decide

/-- C3 (amended): in the reader loop, whenever the first byte read is STX
(0x02), the reader next reads exactly 2 length bytes, decodes the length L
big-endian (`(length_bytes[0] << 8) | length_bytes[1]`, that is,
first byte × 256 + second byte — not packed-decimal), and then reads
exactly L + 2 further bytes to complete the frame. -/
theorem serial_read_full_message_consumption (b0 b1 : Nat) (rest : List Nat)
    (hb1 : b1 < 256) (havail : 256 * b0 + b1 + 2 ≤ rest.length) :
    Nat.lor (Nat.shiftLeft b0 8) b1 = 256 * b0 + b1 ∧
    (listener_step 0x02 (b0 :: b1 :: rest)).consumed =
      0x02 :: b0 :: b1 :: rest.take (256 * b0 + b1 + 2) ∧
    (listener_step 0x02 (b0 :: b1 :: rest)).consumed.length = 1 + 2 + (256 * b0 + b1) + 2 := by
  have hb : Nat.lor (Nat.shiftLeft b0 8) b1 = 256 * b0 + b1 := by
    rw [shiftLeft_lor_eq 8 b0 b1 (by norm_num; omega)]
    ring_nf
  have hcons : (listener_step 0x02 (b0 :: b1 :: rest)).consumed =
      0x02 :: b0 :: b1 :: rest.take (Nat.lor (Nat.shiftLeft b0 8) b1 + 2) := rfl
  refine ⟨hb, ?_, ?_⟩
  · rw [hcons, hb]
  · rw [hcons, hb]
    simp [List.length_take]
    omega

/-- C3 (amended) witness: length bytes 0x03 0x00 with 770 bytes available
— the reader consumes 3 × 256 + 0 + 2 = 770 of them. -/
theorem serial_read_full_message_consumption_witness :
    Nat.lor (Nat.shiftLeft 0x03 8) 0x00 = 256 * 0x03 + 0x00 ∧
    (listener_step 0x02 (0x03 :: 0x00 :: List.replicate 770 5)).consumed =
      0x02 :: 0x03 :: 0x00 :: (List.replicate 770 5).take (256 * 0x03 + 0x00 + 2) ∧
    (listener_step 0x02 (0x03 :: 0x00 :: List.replicate 770 5)).consumed.length =
      1 + 2 + (256 * 0x03 + 0x00) + 2 :=
  serial_read_full_message_consumption 0x03 0x00 (List.replicate 770 5) (by decide)
    (by simp)

/-! ## C4 and C5 — parser tolerance -/

/-- The successful branch of `_parse_manual`: with STX present, the
packed-decimal length equal to 300 and at least 305 bytes, parsing returns
the unpacked 300-byte data block. -/
theorem parse_manual_ok_eq (b : List Nat) (h5 : 5 ≤ b.length) (h0 : b.getD 0 0 = 0x02)
    (hml : ((b.drop 1).take 2).getD 0 0 * 100 + ((b.drop 1).take 2).getD 1 0 = 300)
    (h305 : 305 ≤ b.length) :
    parse_manual b = .ok (mkParsedResponse ((b.drop 3).take 300)) := by
  unfold parse_manual
  rw [if_neg (by omega)]
  dsimp only
  rw [if_neg (by simp only [h0]; decide), hml]
  rw [if_neg (by simp), if_neg (by omega)]

/-- C4 counterexample: the 345-byte sequence of the claim — a frame whose
LEN bytes are 0x02 0x00, followed by 40 extra bytes — makes the fallback
parser raise the invalid-length error (packed-decimal 200 ≠ 300), so no
parsed result and in particular no trailing/QR material is exposed for it. -/
theorem parse_trailing_cex :
    parse_manual (0x02 :: 0x02 :: 0x00 :: List.replicate 342 0x41) =
      .error "Invalid length: 200, expected 300" := by
  rfl

/-- C4 (amended): a 345-byte sequence that is a 305-byte response frame
with LEN bytes 0x03 0x00 followed by 40 extra trailing bytes does not
raise a frame-too-short (or any) error; the parser tolerates the extra
bytes but ignores them — the result is exactly that of parsing the first
305 bytes, so the trailing bytes are not exposed by `Parse` itself (the
serial listener's separate QR collection is what delivers trailing
material to the caller). -/
theorem parse_trailing_tolerated (bytes : List Nat) (hlen : bytes.length = 345)
    (h0 : bytes.getD 0 0 = 0x02) (h1 : bytes.getD 1 0 = 0x03) (h2 : bytes.getD 2 0 = 0x00) :
    ∃ r, parse_manual bytes = .ok r ∧ parse_manual (bytes.take 305) = .ok r := by
  rcases bytes with _ | ⟨b0, _ | ⟨b1, _ | ⟨b2, rest⟩⟩⟩ <;> simp_all [List.getD]
  subst h0 h1 h2
  have hrest : rest.length = 342 := by omega
  have e1 : parse_manual (0x02 :: 0x03 :: 0x00 :: rest) =
      .ok (mkParsedResponse (rest.take 300)) := by
    have := parse_manual_ok_eq (0x02 :: 0x03 :: 0x00 :: rest) (by simp; omega) rfl rfl
      (by simp; omega)
    simpa using this
  have e2 : parse_manual ((0x02 :: 0x03 :: 0x00 :: rest).take 305) =
      .ok (mkParsedResponse (rest.take 300)) := by
    have h3 : (0x02 :: 0x03 :: 0x00 :: rest).take 305 =
        0x02 :: 0x03 :: 0x00 :: rest.take 302 := rfl
    rw [h3]
    have := parse_manual_ok_eq (0x02 :: 0x03 :: 0x00 :: rest.take 302)
      (by simp [List.length_take]; omega) rfl rfl (by simp [List.length_take]; omega)
    rw [this]
    have h4 : (rest.take 302).take 300 = rest.take 300 := by
      rw [List.take_take]
      norm_num
    simp [h4]
  exact ⟨_, e1, e2⟩

/-- C4 (amended) witness: a concrete 345-byte sequence (305-byte frame
plus 40 trailing 0x51 bytes). -/
theorem parse_trailing_tolerated_witness :
    ∃ r, parse_manual (0x02 :: 0x03 :: 0x00 :: (List.replicate 300 0x41 ++
        (0x03 :: 0x00 :: List.replicate 40 0x51))) = .ok r ∧
      parse_manual ((0x02 :: 0x03 :: 0x00 :: (List.replicate 300 0x41 ++
        (0x03 :: 0x00 :: List.replicate 40 0x51))).take 305) = .ok r :=
  parse_trailing_tolerated _ (by simp) rfl rfl rfl

/-- C5: for every byte sequence starting with STX whose LEN bytes decode
(packed-decimal) to 300, with total length at least 305 and ETX at the
expected offset, the fallback parse returns a fully parsed field record —
there is no hypothesis on the received LRC byte, so an LRC mismatch never
makes `Parse` fail. -/
theorem parse_ignores_lrc_mismatch (bytes : List Nat) (hlen : 305 ≤ bytes.length)
    (h0 : bytes.getD 0 0 = 0x02) (hml : bytes.getD 1 0 * 100 + bytes.getD 2 0 = 300)
    (hetx : bytes.getD 303 0 = 0x03) :
    ∃ r, parse_manual bytes = .ok r := by
  rcases bytes with _ | ⟨b0, _ | ⟨b1, _ | ⟨b2, rest⟩⟩⟩ <;> simp_all [List.getD]
  subst h0
  exact ⟨_, parse_manual_ok_eq (0x02 :: b1 :: b2 :: rest) (by simp; omega) rfl
    (by simpa using hml) (by simp; omega)⟩

/-- C5 witness: a 305-byte frame whose LRC byte is 0x00 while the
recomputed LRC over `STX|LEN|DATA|ETX` is 0x02 — parsing succeeds anyway. -/
theorem parse_ignores_lrc_mismatch_witness :
    calculate_lrc (0x02 :: 0x03 :: 0x00 :: (List.replicate 300 0x41 ++ [0x03])) = 0x02 ∧
    (0x00 : Nat) ≠ 0x02 ∧
    ∃ r, parse_manual (0x02 :: 0x03 :: 0x00 :: (List.replicate 300 0x41 ++
      [0x03, 0x00])) = .ok r := by
  refine ⟨by rfl, by decide, ?_⟩
  exact parse_ignores_lrc_mismatch _ (by simp) rfl (by rfl) (by rfl)

/-! ## Store lemmas -/

theorem any_map_fst_eq (store : Store) (g : String × TransactionRecord →
    String × TransactionRecord) (hg : ∀ q, (g q).1 = q.1) (id' : String) :
    (store.map g).any (fun p => p.1 == id') = store.any (fun p => p.1 == id') := by
  induction store with
  | nil => rfl
  | cons q rest ih => simp [List.any_cons, hg q, ih]

theorem any_update_transaction (store : Store) (id id' : String) (pt : RecordPatch) :
    (update_transaction store id pt).any (fun p => p.1 == id') =
      store.any (fun p => p.1 == id') := by
  unfold update_transaction
  split
  · exact any_map_fst_eq store _ (fun q => by by_cases h : q.1 == id <;> simp [h]) id'
  · rfl

theorem any_add_transaction (store : Store) (id : String) (rec : TransactionRecord) :
    (add_transaction store id rec).any (fun p => p.1 == id) = true := by
  unfold add_transaction
  split
  · rename_i hpresent
    rw [any_map_fst_eq store _ (fun q => by by_cases h : q.1 == id <;> simp [h])]
    exact hpresent
  · simp [List.any_append]

theorem mem_any (store : Store) (id : String) (rec : TransactionRecord)
    (h : (id, rec) ∈ store) : store.any (fun p => p.1 == id) = true := by
  apply List.any_eq_true.mpr
  exact ⟨(id, rec), h, by simp⟩

theorem find?_update_map (store : Store) (id : String) (pt : RecordPatch) :
    (store.map (fun q => if q.1 == id then (q.1, applyPatch q.2 pt) else q)).find?
        (fun p => p.1 == id) =
      (store.find? (fun p => p.1 == id)).map (fun p => (p.1, applyPatch p.2 pt)) := by
  induction store with
  | nil => rfl
  | cons q rest ih =>
    simp only [List.map_cons]
    by_cases hq : q.1 == id
    · rw [if_pos hq]
      simp only [List.find?]
      rw [hq]
      rfl
    · have hqf : (q.1 == id) = false := Bool.eq_false_iff.mpr hq
      rw [if_neg hq]
      simp only [List.find?]
      rw [hqf, ih]

theorem record_status_update_present (store : Store) (id : String) (pt : RecordPatch)
    (s : String) (hst : pt.status = some s)
    (hpresent : store.any (fun p => p.1 == id) = true) :
    record_status (update_transaction store id pt) id = some s := by
  unfold update_transaction record_status
  rw [if_pos hpresent, find?_update_map]
  obtain ⟨q, hmem, hq⟩ := List.any_eq_true.mp hpresent
  have hsome : (store.find? (fun p => p.1 == id)).isSome = true :=
    List.find?_isSome.mpr ⟨q, hmem, hq⟩
  obtain ⟨r, hr⟩ := Option.isSome_iff_exists.mp hsome
  rw [hr]
  simp [applyPatch, hst]

/-! ## C8 — REST polling bound and error resolution -/

/-- With an endpoint that replies 503 to every poll, the loop consumes all
its fuel and ends in the timeout error. -/
theorem poll_rest_from_503 (responder : Nat → PollReply)
    (h503 : ∀ n, ∃ resp, responder n = .status 503 resp) :
    ∀ (fuel poll_count : Nat),
      poll_rest_from responder poll_count fuel =
        (.error "Polling timeout after 10.0 minutes", poll_count + fuel) := by
  intro fuel
  induction fuel with
  | zero =>
    intro pc
    simp [poll_rest_from]
  | succ fuel ih =>
    intro pc
    obtain ⟨resp, hr⟩ := h503 (pc + 1)
    simp only [poll_rest_from]
    rw [hr]
    dsimp only
    rw [if_pos rfl, ih (pc + 1)]
    refine congrArg _ ?_
    omega

/-- C8: when the result endpoint returns HTTP 503 on every poll, the
polling loop performs exactly its configured bound of 6000 polls and then
terminates with the timeout error, and the orchestrator resolves the
transaction record to status `"error"` — it never polls past the bound
and never leaves the record `"processing"`. -/
theorem rest_poll_bound_and_error (responder : Nat → PollReply)
    (h503 : ∀ n, ∃ resp, responder n = .status 503 resp)
    (store : Store) (trx_id : String) (now : Nat) :
    (poll_rest_api_result responder).2 = 6000 ∧
    (poll_rest_api_result responder).1 = .error "Polling timeout after 10.0 minutes" ∧
    record_status (process_transaction_socket store trx_id now
        (poll_rest_api_result responder).1) trx_id = some "error" := by
  have h1 : poll_rest_api_result responder =
      (.error "Polling timeout after 10.0 minutes", 6000) := by
    unfold poll_rest_api_result
    rw [poll_rest_from_503 responder h503 6000 0]
  refine ⟨by rw [h1], by rw [h1], ?_⟩
  rw [h1]
  unfold process_transaction_socket process_socket_transaction
  dsimp only
  apply record_status_update_present _ _ _ _ rfl
  rw [any_update_transaction]
  exact any_add_transaction store trx_id _

/-- C8 witness: one concrete always-503 endpoint, an empty store and a
fresh transaction id. -/
theorem rest_poll_bound_and_error_witness :
    (poll_rest_api_result fun _ => .status 503 ⟨[], [], [], []⟩).2 = 6000 ∧
    (poll_rest_api_result fun _ => .status 503 ⟨[], [], [], []⟩).1 =
      .error "Polling timeout after 10.0 minutes" ∧
    record_status (process_transaction_socket [] "T1" 0
        (poll_rest_api_result fun _ => .status 503 ⟨[], [], [], []⟩).1) "T1" =
      some "error" :=
  rest_poll_bound_and_error (fun _ => .status 503 ⟨[], [], [], []⟩)
    (fun _ => ⟨⟨[], [], [], []⟩, rfl⟩) [] "T1" 0

/-! ## C10 — the serial-response handler mutates exactly one record -/

theorem pyMaxByTs_cons (x y : String × Nat) (ys : List (String × Nat)) :
    pyMaxByTs x (y :: ys) = pyMaxByTs (if y.2 > x.2 then y else x) ys := rfl

theorem pyMaxByTs_mem (x : String × Nat) (xs : List (String × Nat)) :
    pyMaxByTs x xs ∈ x :: xs := by
  induction xs generalizing x with
  | nil => simp [pyMaxByTs]
  | cons y ys ih =>
    rw [pyMaxByTs_cons]
    have h := ih (if y.2 > x.2 then y else x)
    rcases List.mem_cons.mp h with h1 | h1
    · rw [h1]
      by_cases hc : y.2 > x.2 <;> simp [hc]
    · simp [List.mem_cons, h1]

theorem pyMaxByTs_ge (x : String × Nat) (xs : List (String × Nat)) :
    ∀ q ∈ x :: xs, q.2 ≤ (pyMaxByTs x xs).2 := by
  induction xs generalizing x with
  | nil =>
    intro q hq
    rcases List.mem_cons.mp hq with rfl | h
    · simp [pyMaxByTs]
    · simp at h
  | cons y ys ih =>
    intro q hq
    rw [pyMaxByTs_cons]
    have hx : x.2 ≤ (if y.2 > x.2 then y else x).2 := by split <;> omega
    have hy : y.2 ≤ (if y.2 > x.2 then y else x).2 := by split <;> omega
    have hhead := ih (if y.2 > x.2 then y else x) _ (List.mem_cons_self _ _)
    rcases List.mem_cons.mp hq with rfl | hq2
    · exact le_trans hx hhead
    · rcases List.mem_cons.mp hq2 with rfl | hq3
      · exact le_trans hy hhead
      · exact ih _ q (List.mem_cons_of_mem _ hq3)

/-- Every code path of `_handle_serial_response` resolves the selected
record's status to something other than `"processing"`. -/
theorem serial_update_data_status (h : String) (u : Option (List Nat)) :
    ∃ s, (serial_update_data h u).status = some s ∧ s ≠ "processing" := by
  unfold serial_update_data
  split
  · exact ⟨"error parsing", rfl, by decide⟩
  · dsimp only
    split
    · exact ⟨"error parsing", rfl, by decide⟩
    · refine ⟨_, rfl, ?_⟩
      split <;> decide

/-- C10: when the serial-response handler receives a `RESPONSE` or
`RAW_RESPONSE` callback with data, it patches exactly the record whose
status is `"processing"` with the greatest timestamp, leaving every other
record untouched (the result is a key-preserving map that modifies only
the selected id, and its new status is never `"processing"`); if no record
is `"processing"`, the store is returned unchanged. -/
theorem serial_response_single_update (store : Store) (response_type : String)
    (d : SerialResponseData)
    (hrt : response_type = "RESPONSE" ∨ response_type = "RAW_RESPONSE") :
    ((∀ q ∈ store, q.2.status ≠ "processing") →
      handle_serial_response store response_type (some d) = store) ∧
    (∀ q0 ∈ store, q0.2.status = "processing" →
      ∃ sel : String, ∃ rec : TransactionRecord,
        (sel, rec) ∈ store ∧ rec.status = "processing" ∧
        (∀ q ∈ store, q.2.status = "processing" → q.2.timestamp ≤ rec.timestamp) ∧
        handle_serial_response store response_type (some d) =
          store.map (fun q => if q.1 == sel then
            (q.1, applyPatch q.2 (serial_update_data d.raw_response d.unknown_bytes))
          else q) ∧
        ∃ s, (serial_update_data d.raw_response d.unknown_bytes).status = some s ∧
          s ≠ "processing") := by
  constructor
  · intro hnone
    unfold handle_serial_response
    dsimp only
    rw [if_pos hrt]
    have hfilter : store.filter (fun p => p.2.status == "processing") = [] := by
      rw [List.filter_eq_nil_iff]
      intro p hp
      simp [hnone p hp]
    rw [hfilter]
    rfl
  · intro q0 hq0 hq0s
    unfold handle_serial_response
    dsimp only
    rw [if_pos hrt]
    have hq0f : q0 ∈ store.filter (fun p => p.2.status == "processing") :=
      List.mem_filter.mpr ⟨hq0, by simp [hq0s]⟩
    have hq0m : (q0.1, q0.2.timestamp) ∈
        (store.filter (fun p => p.2.status == "processing")).map
          (fun p => (p.1, p.2.timestamp)) :=
      List.mem_map_of_mem _ hq0f
    cases hpt : (store.filter (fun p => p.2.status == "processing")).map
        (fun p => (p.1, p.2.timestamp)) with
    | nil => rw [hpt] at hq0m; simp at hq0m
    | cons x xs =>
      dsimp only
      have hmax_mem : pyMaxByTs x xs ∈ x :: xs := pyMaxByTs_mem x xs
      rw [← hpt] at hmax_mem
      obtain ⟨a, haf, hfa⟩ := List.mem_map.mp hmax_mem
      have hamem : a ∈ store := (List.mem_filter.mp haf).1
      have haproc : a.2.status = "processing" := by
        have := (List.mem_filter.mp haf).2
        simpa using this
      refine ⟨(pyMaxByTs x xs).1, a.2, ?_, haproc, ?_, ?_,
        serial_update_data_status _ _⟩
      · rw [← hfa]
        exact hamem
      · intro q hq hqs
        have hqm : (q.1, q.2.timestamp) ∈ x :: xs := by
          rw [← hpt]
          exact List.mem_map_of_mem _ (List.mem_filter.mpr ⟨hq, by simp [hqs]⟩)
        have := pyMaxByTs_ge x xs _ hqm
        rw [← hfa] at this
        simpa using this
      · unfold update_transaction
        rw [if_pos]
        exact mem_any store _ a.2 (by rw [← hfa]; exact hamem)

/-- C10 witness: a two-record store whose only `"processing"` record is
`"a"`; the handler patches `"a"` and leaves `"b"` unchanged. -/
theorem serial_response_single_update_witness :
    ((∀ q ∈ ([("a", { status := "processing", timestamp := 5 }),
        ("b", { status := "success", timestamp := 9 })] : Store),
        q.2.status ≠ "processing") →
      handle_serial_response [("a", { status := "processing", timestamp := 5 }),
        ("b", { status := "success", timestamp := 9 })] "RESPONSE"
        (some ⟨"02", none⟩) =
        [("a", { status := "processing", timestamp := 5 }),
         ("b", { status := "success", timestamp := 9 })]) ∧
    (∀ q0 ∈ ([("a", { status := "processing", timestamp := 5 }),
        ("b", { status := "success", timestamp := 9 })] : Store),
      q0.2.status = "processing" →
      ∃ sel : String, ∃ rec : TransactionRecord,
        (sel, rec) ∈ ([("a", { status := "processing", timestamp := 5 }),
          ("b", { status := "success", timestamp := 9 })] : Store) ∧
        rec.status = "processing" ∧
        (∀ q ∈ ([("a", { status := "processing", timestamp := 5 }),
            ("b", { status := "success", timestamp := 9 })] : Store),
          q.2.status = "processing" → q.2.timestamp ≤ rec.timestamp) ∧
        handle_serial_response [("a", { status := "processing", timestamp := 5 }),
          ("b", { status := "success", timestamp := 9 })] "RESPONSE"
          (some ⟨"02", none⟩) =
          ([("a", { status := "processing", timestamp := 5 }),
            ("b", { status := "success", timestamp := 9 })] : Store).map
            (fun q => if q.1 == sel then
              (q.1, applyPatch q.2 (serial_update_data
                (⟨"02", none⟩ : SerialResponseData).raw_response
                (⟨"02", none⟩ : SerialResponseData).unknown_bytes))
            else q) ∧
        ∃ s, (serial_update_data (⟨"02", none⟩ : SerialResponseData).raw_response
            (⟨"02", none⟩ : SerialResponseData).unknown_bytes).status = some s ∧
          s ≠ "processing") :=
  serial_response_single_update
    [("a", { status := "processing", timestamp := 5 }),
     ("b", { status := "success", timestamp := 9 })] "RESPONSE" ⟨"02", none⟩
    (Or.inl rfl)

end Ecr
